import Mathlib

/-!
Verification development for the BeadForge TTS asset-generation scripts
(`scripts/generate-tts-audio.py` and `scripts/generate-edge-tts.py`).

The scripts are batch sweeps over static translation tables: for each
(category, item, language) they build an output path, skip it when a file
already exists (unless `overwrite`), and otherwise invoke an external
text-to-speech call and write the result.

Shallow embedding conventions:
- A filesystem path is a `List String` of components, relative to the
  project root (so `public/audio/tts/ru/female-default/red.mp3` is
  `["public", "audio", "tts", "ru", "female-default", "red.mp3"]`).
- The observable effects are threaded through a state `St`: the set of
  files on disk (`fs`, as a list of paths), the log of synthesis
  invocations actually issued to the backend (`calls` for gTTS,
  `edgeCalls` for edge-tts), and the warning/error messages printed
  (`logs`; informational prints such as banners, "Generating: ..." and
  "Skipping (exists): ..." lines are not modelled). Directory creation
  (`mkdir(parents=True, exist_ok=True)`) has no observable effect in this
  model and is elided.
- The external TTS backends are oracles in an environment: `Env.synthOk`
  says whether a given gTTS synthesis-and-save call succeeds, and
  `EdgeEnv.synthOk` the same for edge-tts. A failing call raises an
  exception in Python; the embedding models the `try` body of the wrapper
  as an `Except`-valued function and the wrapper as the handler.
- Python dict access `d[k]` is `List.lookup` (a missing key is a
  `KeyError`); `d.get(k)` followed by a falsiness test `if not v:` is
  `truthyGet` / `getDict` (both `None` and an empty value take the
  "missing" branch, exactly as in the scripts).
-/

/-- A warning or error message printed by the scripts. Each constructor
corresponds to one `print` of a warning/error in the source. -/
inductive LogEntry : Type where
  /-- Message `Warning: No translations found for color/modifier/event <key>`. -/
  | noTranslations (key : String)
  /-- Message `Warning: No <lang> translation for <key>`. -/
  | noLangTranslation (lang key : String)
  /-- Message `Warning: No voice for language <lang>` (edge-tts script). -/
  | noVoice (lang : String)
  /-- Message `Error: gTTS not available. Install with: pip install gtts`. -/
  | gttsUnavailable
  /-- Message `Error generating audio for <text>: <e>` (gTTS except handler). -/
  | synthesisError (text : String)
  /-- Message `Error generating <output_path>: <e>` (edge-tts except handler). -/
  | edgeSynthesisError (path : List String)
  deriving DecidableEq, Repr

/-- A synthesis invocation issued to the gTTS backend:
`gTTS(text=text, lang=code, tld=tld, slow=slow)` followed by
`tts.save(path)`. -/
structure SynthCall : Type where
  text : String
  code : String
  tld : String
  slow : Bool
  path : List String
  deriving DecidableEq, Repr

/-- A synthesis invocation issued to the edge-tts backend:
`edge_tts.Communicate(text, voice)` followed by `communicate.save(path)`. -/
structure EdgeCall : Type where
  text : String
  voice : String
  path : List String
  deriving DecidableEq, Repr

/-- Observable state of a run: files present on disk, synthesis calls
issued so far to each backend, and warnings/errors printed so far. -/
structure St : Type where
  fs : List (List String)
  calls : List SynthCall
  edgeCalls : List EdgeCall
  logs : List LogEntry
  deriving DecidableEq, Repr

/-- Append a warning/error to the print log. -/
def log (st : St) (e : LogEntry) : St :=
  { st with logs := st.logs ++ [e] }

/-- Python `str.lower()` as used on the ASCII item keys (`color_key.lower()`,
`modifier_key.lower()`), written over the character list so that it is
kernel-reducible. -/
def pyLower (s : String) : String := ⟨s.data.map Char.toLower⟩

/-- Python `d.get(k)` followed by `if not v:` on a string value: both a
missing key and an empty string count as absent. -/
def truthyGet (d : List (String × String)) (k : String) : Option String :=
  match List.lookup k d with
  | some v => if v = "" then none else some v
  | none => none

/-- Python `d.get(k)` followed by `if not v:` on a dict value: both a
missing key and an empty dict count as absent. -/
def getDict (d : List (String × List (String × String))) (k : String) :
    Option (List (String × String)) :=
  match List.lookup k d with
  | some v => if v.isEmpty then none else some v
  | none => none

namespace GenTTS

/-- Table `COLOR_TRANSLATIONS` from `generate-tts-audio.py`. -/
def COLOR_TRANSLATIONS : List (String × List (String × String)) := [
  ("White", [("ru", "белый"), ("uk", "білий"), ("en", "white")]),
  ("Black", [("ru", "чёрный"), ("uk", "чорний"), ("en", "black")]),
  ("Red", [("ru", "красный"), ("uk", "червоний"), ("en", "red")]),
  ("Green", [("ru", "зелёный"), ("uk", "зелений"), ("en", "green")]),
  ("Blue", [("ru", "синий"), ("uk", "синій"), ("en", "blue")]),
  ("Yellow", [("ru", "жёлтый"), ("uk", "жовтий"), ("en", "yellow")]),
  ("Orange", [("ru", "оранжевый"), ("uk", "помаранчевий"), ("en", "orange")]),
  ("Purple", [("ru", "фиолетовый"), ("uk", "фіолетовий"), ("en", "purple")]),
  ("Pink", [("ru", "розовый"), ("uk", "рожевий"), ("en", "pink")]),
  ("Cyan", [("ru", "голубой"), ("uk", "блакитний"), ("en", "cyan")]),
  ("Brown", [("ru", "коричневый"), ("uk", "коричневий"), ("en", "brown")]),
  ("Gray", [("ru", "серый"), ("uk", "сірий"), ("en", "gray")]),
  ("Silver", [("ru", "серебряный"), ("uk", "срібний"), ("en", "silver")]),
  ("Gold", [("ru", "золотой"), ("uk", "золотий"), ("en", "gold")]),
  ("Navy", [("ru", "тёмно-синий"), ("uk", "темно-синій"), ("en", "navy")]),
  ("Maroon", [("ru", "бордовый"), ("uk", "бордовий"), ("en", "maroon")]),
  ("Beige", [("ru", "бежевый"), ("uk", "бежевий"), ("en", "beige")]),
  ("Turquoise", [("ru", "бирюзовый"), ("uk", "бірюзовий"), ("en", "turquoise")]),
  ("Coral", [("ru", "коралловый"), ("uk", "кораловий"), ("en", "coral")]),
  ("Lavender", [("ru", "лавандовый"), ("uk", "лавандовий"), ("en", "lavender")]),
  ("Mint", [("ru", "мятный"), ("uk", "м\x27ятний"), ("en", "mint")]),
  ("Peach", [("ru", "персиковый"), ("uk", "персиковий"), ("en", "peach")]),
  ("Olive", [("ru", "оливковый"), ("uk", "оливковий"), ("en", "olive")]),
  ("Lime", [("ru", "лаймовый"), ("uk", "лаймовий"), ("en", "lime")]),
  ("Teal", [("ru", "бирюзово-синий"), ("uk", "синьо-зелений"), ("en", "teal")]),
  ("Ivory", [("ru", "слоновая кость"), ("uk", "слонова кістка"), ("en", "ivory")]),
  ("Khaki", [("ru", "хаки"), ("uk", "хакі"), ("en", "khaki")]),
  ("Crimson", [("ru", "малиновый"), ("uk", "малиновий"), ("en", "crimson")]),
  ("Indigo", [("ru", "индиго"), ("uk", "індиго"), ("en", "indigo")]),
  ("Magenta", [("ru", "пурпурный"), ("uk", "пурпуровий"), ("en", "magenta")]),
  ("Violet", [("ru", "фиалковый"), ("uk", "фіалковий"), ("en", "violet")]),
  ("Salmon", [("ru", "лососевый"), ("uk", "лососевий"), ("en", "salmon")]),
  ("Tan", [("ru", "загар"), ("uk", "засмага"), ("en", "tan")]),
  ("Aqua", [("ru", "аква"), ("uk", "аква"), ("en", "aqua")]),
  ("Azure", [("ru", "лазурный"), ("uk", "лазурний"), ("en", "azure")])
]

/-- Table `MODIFIER_TRANSLATIONS` from `generate-tts-audio.py`. -/
def MODIFIER_TRANSLATIONS : List (String × List (String × String)) := [
  ("light", [("ru", "светлый"), ("uk", "світлий"), ("en", "light")]),
  ("dark", [("ru", "тёмный"), ("uk", "темний"), ("en", "dark")]),
  ("transparent", [("ru", "прозрачный"), ("uk", "прозорий"), ("en", "transparent")]),
  ("matte", [("ru", "матовый"), ("uk", "матовий"), ("en", "matte")]),
  ("glossy", [("ru", "глянцевый"), ("uk", "глянцевий"), ("en", "glossy")]),
  ("pearl", [("ru", "перламутровый"), ("uk", "перламутровий"), ("en", "pearl")]),
  ("metallic", [("ru", "металлик"), ("uk", "металік"), ("en", "metallic")]),
  ("pastel", [("ru", "пастельный"), ("uk", "пастельний"), ("en", "pastel")]),
  ("bright", [("ru", "яркий"), ("uk", "яскравий"), ("en", "bright")])
]

/-- Table `EVENT_TRANSLATIONS` from `generate-tts-audio.py` (Ukrainian-only). -/
def EVENT_TRANSLATIONS : List (String × List (String × String)) := [
  ("petlya-pidyomu", [("uk", "петля підйому")]),
  ("prybavka", [("uk", "прибавка")]),
  ("ubavka", [("uk", "убавка")]),
  ("zakriplennya", [("uk", "закріплення")]),
  ("attention", [("uk", "увага")])
]

/-- Table `LANGUAGE_CODES` from `generate-tts-audio.py`. -/
def LANGUAGE_CODES : List (String × String) :=
  [("ru", "ru"), ("uk", "uk"), ("en", "en")]

/-- One entry of `VOICE_CONFIGS`: `{"language": ..., "folder": ..., "tld": ...}`.
`tld` is optional because the code reads it with `config.get("tld", "com")`. -/
structure VoiceConfig : Type where
  language : String
  folder : String
  tld : Option String
  deriving DecidableEq, Repr

/-- Table `VOICE_CONFIGS` from `generate-tts-audio.py`. -/
def VOICE_CONFIGS : List VoiceConfig := [
  ⟨"ru", "female-default", some "com"⟩,
  ⟨"uk", "female-default", some "com"⟩,
  ⟨"en", "female-default", some "com"⟩
]

/-- Environment of a run of `generate-tts-audio.py`: whether the
gTTS import succeeded (`GTTS_AVAILABLE`), and the backend oracle deciding
whether a given synthesis-and-save call succeeds or raises. -/
structure Env : Type where
  gttsAvailable : Bool
  synthOk : String → String → List String → Bool

/-- Function `get_output_dir(language, voice_folder)`:
`<root>/public/audio/tts/<language>/<voice_folder>`. -/
def get_output_dir (language voiceFolder : String) : List String :=
  ["public", "audio", "tts", language, voiceFolder]

/-- An exception raised inside the `try` block of `generate_audio_gtts`. -/
inductive PyErr : Type where
  /-- Exception `KeyError` from `LANGUAGE_CODES[language]`. -/
  | keyError (k : String)
  /-- Any exception raised by `gTTS(...)` / `tts.save(...)`
  (e.g. a network error). -/
  | backendError (text : String)
  deriving DecidableEq, Repr

/-- The `try` block of `generate_audio_gtts`: look up the gTTS language
code (a missing key raises `KeyError`), then construct the `gTTS` object
and `save` it to `output_path` (tracked in `calls`); a backend failure
raises after the call was issued, a success writes the file. -/
def gttsBody (env : Env) (text language : String) (outputPath : List String)
    (tld : String) (slow : Bool) (st : St) : Except PyErr Bool × St :=
  match List.lookup language LANGUAGE_CODES with
  | none => (Except.error (PyErr.keyError language), st)
  | some code =>
      let st1 := { st with calls := st.calls ++ [⟨text, code, tld, slow, outputPath⟩] }
      if env.synthOk text code outputPath then
        (Except.ok true, { st1 with fs := st1.fs ++ [outputPath] })
      else
        (Except.error (PyErr.backendError text), st1)

/-- Function `generate_audio_gtts(text, language, output_path, tld, slow)`:
returns `False` when gTTS is unavailable, otherwise runs the `try` block
and converts any exception into a printed error and a `False` return. -/
def generate_audio_gtts (env : Env) (text language : String)
    (outputPath : List String) (tld : String) (slow : Bool) (st : St) :
    Bool × St :=
  if env.gttsAvailable = false then
    (false, log st LogEntry.gttsUnavailable)
  else
    match gttsBody env text language outputPath tld slow st with
    | (Except.ok b, st1) => (b, st1)
    | (Except.error _, st1) => (false, log st1 (LogEntry.synthesisError text))

/-- The `for config in voice_configs:` loop of `generate_color_audio`,
with the color translations, lower-cased filename key and requested
languages fixed. Returns the number of newly generated files. -/
def colorLoop (env : Env) (colorKey : String)
    (translations : List (String × String)) (languages : List String)
    (overwrite : Bool) : List VoiceConfig → St → Nat × St
  | [], st => (0, st)
  | cfg :: rest, st =>
    if cfg.language ∈ languages then
      match truthyGet translations cfg.language with
      | none =>
          colorLoop env colorKey translations languages overwrite rest
            (log st (LogEntry.noLangTranslation cfg.language colorKey))
      | some text =>
          let p := get_output_dir cfg.language cfg.folder ++
            [pyLower colorKey ++ ".mp3"]
          if p ∈ st.fs ∧ overwrite = false then
            colorLoop env colorKey translations languages overwrite rest st
          else
            let r := generate_audio_gtts env text cfg.language p
              (cfg.tld.getD "com") false st
            let r2 := colorLoop env colorKey translations languages overwrite
              rest r.2
            ((if r.1 then 1 else 0) + r2.1, r2.2)
    else colorLoop env colorKey translations languages overwrite rest st

/-- Function `generate_color_audio(color_key, languages, voice_configs, overwrite)`.
`languages = none` and `voiceConfigs = none` are the Python `None`
defaults (all configured languages, `VOICE_CONFIGS`). -/
def generate_color_audio (env : Env) (colorKey : String)
    (languages : Option (List String))
    (voiceConfigs : Option (List VoiceConfig)) (overwrite : Bool) (st : St) :
    Nat × St :=
  let langs := languages.getD (LANGUAGE_CODES.map Prod.fst)
  let vcs := voiceConfigs.getD VOICE_CONFIGS
  match getDict COLOR_TRANSLATIONS colorKey with
  | none => (0, log st (LogEntry.noTranslations colorKey))
  | some tr => colorLoop env colorKey tr langs overwrite vcs st

/-- Python `range(1, max_number + 1)`: the numbers `1 .. max_number`. -/
def numbersUpTo (maxNumber : Nat) : List Nat :=
  (List.range maxNumber).map (· + 1)

/-- The `for num in range(1, max_number + 1):` loop of
`generate_number_audio`, for one voice config. -/
def numLoop (env : Env) (language tld : String) (dir : List String)
    (overwrite : Bool) : List Nat → St → Nat × St
  | [], st => (0, st)
  | n :: rest, st =>
    let p := dir ++ [toString n ++ ".mp3"]
    if p ∈ st.fs ∧ overwrite = false then
      numLoop env language tld dir overwrite rest st
    else
      let r := generate_audio_gtts env (toString n) language p tld false st
      let r2 := numLoop env language tld dir overwrite rest r.2
      ((if r.1 then 1 else 0) + r2.1, r2.2)

/-- The `for config in voice_configs:` loop of `generate_number_audio`. -/
def numConfigLoop (env : Env) (maxNumber : Nat) (languages : List String)
    (overwrite : Bool) : List VoiceConfig → St → Nat × St
  | [], st => (0, st)
  | cfg :: rest, st =>
    if cfg.language ∈ languages then
      let dir := get_output_dir cfg.language cfg.folder ++ ["numbers"]
      let r := numLoop env cfg.language (cfg.tld.getD "com") dir overwrite
        (numbersUpTo maxNumber) st
      let r2 := numConfigLoop env maxNumber languages overwrite rest r.2
      (r.1 + r2.1, r2.2)
    else numConfigLoop env maxNumber languages overwrite rest st

/-- Function `generate_number_audio(max_number, languages, voice_configs, overwrite)`. -/
def generate_number_audio (env : Env) (maxNumber : Nat)
    (languages : Option (List String))
    (voiceConfigs : Option (List VoiceConfig)) (overwrite : Bool) (st : St) :
    Nat × St :=
  let langs := languages.getD (LANGUAGE_CODES.map Prod.fst)
  let vcs := voiceConfigs.getD VOICE_CONFIGS
  numConfigLoop env maxNumber langs overwrite vcs st

/-- The `for config in voice_configs:` loop of `generate_modifier_audio`;
the output directory carries an extra `modifiers` component. -/
def modifierLoop (env : Env) (modifierKey : String)
    (translations : List (String × String)) (languages : List String)
    (overwrite : Bool) : List VoiceConfig → St → Nat × St
  | [], st => (0, st)
  | cfg :: rest, st =>
    if cfg.language ∈ languages then
      match truthyGet translations cfg.language with
      | none =>
          modifierLoop env modifierKey translations languages overwrite rest
            (log st (LogEntry.noLangTranslation cfg.language modifierKey))
      | some text =>
          let p := get_output_dir cfg.language cfg.folder ++
            ["modifiers", pyLower modifierKey ++ ".mp3"]
          if p ∈ st.fs ∧ overwrite = false then
            modifierLoop env modifierKey translations languages overwrite rest st
          else
            let r := generate_audio_gtts env text cfg.language p
              (cfg.tld.getD "com") false st
            let r2 := modifierLoop env modifierKey translations languages
              overwrite rest r.2
            ((if r.1 then 1 else 0) + r2.1, r2.2)
    else modifierLoop env modifierKey translations languages overwrite rest st

/-- Function `generate_modifier_audio(modifier_key, languages, voice_configs,
overwrite)`. -/
def generate_modifier_audio (env : Env) (modifierKey : String)
    (languages : Option (List String))
    (voiceConfigs : Option (List VoiceConfig)) (overwrite : Bool) (st : St) :
    Nat × St :=
  let langs := languages.getD (LANGUAGE_CODES.map Prod.fst)
  let vcs := voiceConfigs.getD VOICE_CONFIGS
  match getDict MODIFIER_TRANSLATIONS modifierKey with
  | none => (0, log st (LogEntry.noTranslations modifierKey))
  | some tr => modifierLoop env modifierKey tr langs overwrite vcs st

/-- The `for modifier in modifiers:` loop of `generate_all_modifiers`. -/
def allModifiersLoop (env : Env) (languages : Option (List String))
    (overwrite : Bool) : List String → St → Nat × St
  | [], st => (0, st)
  | m :: rest, st =>
    let r := generate_modifier_audio env m languages none overwrite st
    let r2 := allModifiersLoop env languages overwrite rest r.2
    (r.1 + r2.1, r2.2)

/-- Function `generate_all_modifiers(languages, modifiers, overwrite)`. -/
def generate_all_modifiers (env : Env) (languages : Option (List String))
    (modifiers : Option (List String)) (overwrite : Bool) (st : St) :
    Nat × St :=
  allModifiersLoop env languages overwrite
    (modifiers.getD (MODIFIER_TRANSLATIONS.map Prod.fst)) st

/-- Function `get_events_output_dir(language)`:
`<root>/public/audio/events/<language>`. -/
def get_events_output_dir (language : String) : List String :=
  ["public", "audio", "events", language]

/-- The `for lang in languages:` loop of `generate_event_audio`. -/
def eventLoop (env : Env) (eventKey : String)
    (translations : List (String × String)) (overwrite : Bool) :
    List String → St → Nat × St
  | [], st => (0, st)
  | lang :: rest, st =>
    match truthyGet translations lang with
    | none =>
        eventLoop env eventKey translations overwrite rest
          (log st (LogEntry.noLangTranslation lang eventKey))
    | some text =>
        let p := get_events_output_dir lang ++ [eventKey ++ ".mp3"]
        if p ∈ st.fs ∧ overwrite = false then
          eventLoop env eventKey translations overwrite rest st
        else
          let r := generate_audio_gtts env text lang p "com" false st
          let r2 := eventLoop env eventKey translations overwrite rest r.2
          ((if r.1 then 1 else 0) + r2.1, r2.2)

/-- Function `generate_event_audio(event_key, languages, overwrite)`; the `None`
default for `languages` is `["uk"]` (events are Ukrainian-only by
default). -/
def generate_event_audio (env : Env) (eventKey : String)
    (languages : Option (List String)) (overwrite : Bool) (st : St) :
    Nat × St :=
  let langs := languages.getD ["uk"]
  match getDict EVENT_TRANSLATIONS eventKey with
  | none => (0, log st (LogEntry.noTranslations eventKey))
  | some tr => eventLoop env eventKey tr overwrite langs st

/-- The `for event in events:` loop of `generate_all_events`. -/
def allEventsLoop (env : Env) (languages : Option (List String))
    (overwrite : Bool) : List String → St → Nat × St
  | [], st => (0, st)
  | e :: rest, st =>
    let r := generate_event_audio env e languages overwrite st
    let r2 := allEventsLoop env languages overwrite rest r.2
    (r.1 + r2.1, r2.2)

/-- Function `generate_all_events(languages, events, overwrite)`. -/
def generate_all_events (env : Env) (languages : Option (List String))
    (events : Option (List String)) (overwrite : Bool) (st : St) :
    Nat × St :=
  allEventsLoop env languages overwrite
    (events.getD (EVENT_TRANSLATIONS.map Prod.fst)) st

/-- The `for color in colors:` loop of `generate_all_audio`. -/
def allColorsLoop (env : Env) (languages : Option (List String))
    (overwrite : Bool) : List String → St → Nat × St
  | [], st => (0, st)
  | c :: rest, st =>
    let r := generate_color_audio env c languages none overwrite st
    let r2 := allColorsLoop env languages overwrite rest r.2
    (r.1 + r2.1, r2.2)

/-- The `stats` dict returned by `generate_all_audio`. -/
structure Stats : Type where
  colors : Nat
  numbers : Nat
  modifiers : Nat
  events : Nat
  deriving DecidableEq, Repr

/-- Function `generate_all_audio(languages, colors, include_numbers,
include_modifiers, include_events, overwrite)`. Note the events call
hard-codes `languages=["uk"]` regardless of the `languages` argument. -/
def generate_all_audio (env : Env) (languages : Option (List String))
    (colors : Option (List String)) (includeNumbers includeModifiers
    includeEvents overwrite : Bool) (st : St) : Stats × St :=
  let colorKeys := colors.getD (COLOR_TRANSLATIONS.map Prod.fst)
  let rc := allColorsLoop env languages overwrite colorKeys st
  let rn := if includeNumbers then
      generate_number_audio env 100 languages none overwrite rc.2
    else (0, rc.2)
  let rm := if includeModifiers then
      generate_all_modifiers env languages none overwrite rn.2
    else (0, rn.2)
  let re := if includeEvents then
      generate_all_events env (some ["uk"]) none overwrite rm.2
    else (0, rm.2)
  (⟨rc.1, rn.1, rm.1, re.1⟩, re.2)

/-- The parsed command-line arguments of `generate-tts-audio.py`. -/
structure Args : Type where
  language : Option (List String)
  colors : Option (List String)
  noNumbers : Bool
  noModifiers : Bool
  modifiersOnly : Bool
  eventsOnly : Bool
  noEvents : Bool
  overwrite : Bool
  listColors : Bool
  listModifiers : Bool
  listEvents : Bool
  deriving DecidableEq, Repr

/-- How a run of `main()` ends. -/
inductive MainOutcome : Type where
  /-- Printed the color table and returned (normal exit). -/
  | listedColors
  /-- Printed the modifier table and returned (normal exit). -/
  | listedModifiers
  /-- Printed the event table and returned (normal exit). -/
  | listedEvents
  /-- Call `sys.exit(1)` with installation guidance (gTTS missing). -/
  | exitMissingBackend
  /-- Ran `generate_all_modifiers` (the `--modifiers-only` path). -/
  | ranModifiersOnly (count : Nat)
  /-- Ran `generate_all_events` (the `--events-only` path). -/
  | ranEventsOnly (count : Nat)
  /-- Ran `generate_all_audio`. -/
  | ranAll (stats : Stats)
  deriving DecidableEq, Repr

/-- Process exit status for each outcome of `main()`. -/
def exitCodeOf : MainOutcome → Nat
  | MainOutcome.exitMissingBackend => 1
  | _ => 0

/-- Function `main()` of `generate-tts-audio.py`, after argument parsing. The
listing branches come first, then the `GTTS_AVAILABLE` check
(`sys.exit(1)`), then the `--modifiers-only` / `--events-only` shortcuts
(both events calls hard-code `languages=["uk"]`), then the full sweep. -/
def main (env : Env) (args : Args) (st : St) : MainOutcome × St :=
  if args.listColors then (MainOutcome.listedColors, st)
  else if args.listModifiers then (MainOutcome.listedModifiers, st)
  else if args.listEvents then (MainOutcome.listedEvents, st)
  else if env.gttsAvailable = false then (MainOutcome.exitMissingBackend, st)
  else if args.modifiersOnly then
    let r := generate_all_modifiers env args.language none args.overwrite st
    (MainOutcome.ranModifiersOnly r.1, r.2)
  else if args.eventsOnly then
    let r := generate_all_events env (some ["uk"]) none args.overwrite st
    (MainOutcome.ranEventsOnly r.1, r.2)
  else
    let r := generate_all_audio env args.language args.colors
      (!args.noNumbers) (!args.noModifiers) (!args.noEvents)
      args.overwrite st
    (MainOutcome.ranAll r.1, r.2)

end GenTTS

namespace EdgeTTS

/-- Table `COLORS` from `generate-edge-tts.py` (keys already lower-case). -/
def COLORS : List (String × List (String × String)) := [
  ("white", [("ru", "белый"), ("uk", "білий"), ("en", "white")]),
  ("black", [("ru", "чёрный"), ("uk", "чорний"), ("en", "black")]),
  ("red", [("ru", "красный"), ("uk", "червоний"), ("en", "red")]),
  ("green", [("ru", "зелёный"), ("uk", "зелений"), ("en", "green")]),
  ("blue", [("ru", "синий"), ("uk", "синій"), ("en", "blue")]),
  ("yellow", [("ru", "жёлтый"), ("uk", "жовтий"), ("en", "yellow")]),
  ("orange", [("ru", "оранжевый"), ("uk", "помаранчевий"), ("en", "orange")]),
  ("purple", [("ru", "фиолетовый"), ("uk", "фіолетовий"), ("en", "purple")]),
  ("pink", [("ru", "розовый"), ("uk", "рожевий"), ("en", "pink")]),
  ("cyan", [("ru", "голубой"), ("uk", "блакитний"), ("en", "cyan")]),
  ("brown", [("ru", "коричневый"), ("uk", "коричневий"), ("en", "brown")]),
  ("gray", [("ru", "серый"), ("uk", "сірий"), ("en", "gray")]),
  ("silver", [("ru", "серебряный"), ("uk", "срібний"), ("en", "silver")]),
  ("gold", [("ru", "золотой"), ("uk", "золотий"), ("en", "gold")]),
  ("navy", [("ru", "тёмно-синий"), ("uk", "темно-синій"), ("en", "navy")]),
  ("maroon", [("ru", "бордовый"), ("uk", "бордовий"), ("en", "maroon")])
]

/-- Table `VOICES` from `generate-edge-tts.py`. -/
def VOICES : List (String × String) := [
  ("ru", "ru-RU-SvetlanaNeural"),
  ("uk", "uk-UA-PolinaNeural"),
  ("en", "en-US-JennyNeural")
]

/-- Environment of a run of `generate-edge-tts.py`: the backend oracle
deciding whether a given `Communicate(text, voice).save(path)` succeeds. -/
structure EdgeEnv : Type where
  synthOk : String → String → List String → Bool

/-- Module initialisation of `generate-edge-tts.py`: when the
`edge_tts` import fails the script prints guidance and calls `sys.exit(1)` before
anything else runs; `some code` is that immediate exit, `none` means
the import succeeded and execution continues. -/
def edgeModuleInit (available : Bool) : Option Nat :=
  if available then none else some 1

/-- Function `generate_audio(text, voice, output_path)` of `generate-edge-tts.py`:
issues the synthesis call (tracked in `edgeCalls`); an exception is
caught, printed and converted to `False`, a success writes the file. -/
def generate_audio (env : EdgeEnv) (text voice : String)
    (outputPath : List String) (st : St) : Bool × St :=
  let st1 := { st with edgeCalls := st.edgeCalls ++ [⟨text, voice, outputPath⟩] }
  if env.synthOk text voice outputPath then
    (true, { st1 with fs := st1.fs ++ [outputPath] })
  else
    (false, log st1 (LogEntry.edgeSynthesisError outputPath))

/-- The `for color_key, translations in COLORS.items():` loop of
`generate_all`; returns `(generated, skipped)` increments. A missing
translation is skipped silently (no warning in this script). -/
def edgeColorLoop (env : EdgeEnv) (lang voice : String) (overwrite : Bool) :
    List (String × List (String × String)) → St → (Nat × Nat) × St
  | [], st => ((0, 0), st)
  | (key, translations) :: rest, st =>
    match truthyGet translations lang with
    | none => edgeColorLoop env lang voice overwrite rest st
    | some text =>
        let p := ["public", "audio", "tts", lang, "female-default",
          key ++ ".mp3"]
        if p ∈ st.fs ∧ overwrite = false then
          let r := edgeColorLoop env lang voice overwrite rest st
          ((r.1.1, r.1.2 + 1), r.2)
        else
          let g := generate_audio env text voice p st
          let r := edgeColorLoop env lang voice overwrite rest g.2
          ((( if g.1 then 1 else 0) + r.1.1, r.1.2), r.2)

/-- The `for lang in languages:` loop of `generate_all`: an unconfigured
language is warned about and skipped entirely. -/
def edgeLangLoop (env : EdgeEnv) (overwrite : Bool) :
    List String → St → (Nat × Nat) × St
  | [], st => ((0, 0), st)
  | lang :: rest, st =>
    match truthyGet VOICES lang with
    | none =>
        edgeLangLoop env overwrite rest (log st (LogEntry.noVoice lang))
    | some voice =>
        let r := edgeColorLoop env lang voice overwrite COLORS st
        let r2 := edgeLangLoop env overwrite rest r.2
        ((r.1.1 + r2.1.1, r.1.2 + r2.1.2), r2.2)

/-- Function `generate_all(languages, overwrite)` of `generate-edge-tts.py`;
returns the final `(generated, skipped)` counters. -/
def generate_all (env : EdgeEnv) (languages : Option (List String))
    (overwrite : Bool) (st : St) : (Nat × Nat) × St :=
  edgeLangLoop env overwrite (languages.getD (VOICES.map Prod.fst)) st

end EdgeTTS

/-- Environment in which gTTS is installed and every synthesis call
succeeds. -/
def envAll : GenTTS.Env := ⟨true, fun _ _ _ => true⟩

/-- Environment in which gTTS is installed but every synthesis call
fails (e.g. the network is down). -/
def envFail : GenTTS.Env := ⟨true, fun _ _ _ => false⟩

/-- Environment in which the gTTS import failed. -/
def envNoGtts : GenTTS.Env := ⟨false, fun _ _ _ => true⟩

/-- Edge-tts environment in which every synthesis call succeeds. -/
def edgeEnvAll : EdgeTTS.EdgeEnv := ⟨fun _ _ _ => true⟩

/-- The empty initial state: no files, no calls, nothing printed. -/
def stEmpty : St := ⟨[], [], [], []⟩

/-- Command line with no flags set (argparse defaults). -/
def baseArgs : GenTTS.Args :=
  ⟨none, none, false, false, false, false, false, false, false, false, false⟩

/-- C2 counterexample: the claim places modifier audio at the flat
location `audio/tts/<language>/<voice-folder>/<item>.mp3`, but generating
the modifier `light` for English writes
`public/audio/tts/en/female-default/modifiers/light.mp3` — under a
`modifiers` subdirectory — and no file exists at the flat location. -/
theorem claim_c2_counterexample :
    (GenTTS.generate_modifier_audio envAll "light" (some ["en"]) none false
      stEmpty).2.fs =
      [["public", "audio", "tts", "en", "female-default", "modifiers",
        "light.mp3"]] ∧
    ["public", "audio", "tts", "en", "female-default", "light.mp3"] ∉
      (GenTTS.generate_modifier_audio envAll "light" (some ["en"]) none false
        stEmpty).2.fs := by
  constructor
  · rfl
  · decide

/-- C2 (amended): colors are written flat at
`public/audio/tts/<language>/<voice-folder>/<item>.mp3`; modifiers go
under a `modifiers` subdirectory of the voice folder; the numeral subtree
goes under a `numbers` subdirectory; event phrases go to
`public/audio/events/<language>/<item>.mp3`. -/
theorem claim_c2_amended_layout :
    (GenTTS.generate_color_audio envAll "Red" (some ["ru"]) none false
      stEmpty).2.fs =
      [["public", "audio", "tts", "ru", "female-default", "red.mp3"]] ∧
    (GenTTS.generate_modifier_audio envAll "light" (some ["en"]) none false
      stEmpty).2.fs =
      [["public", "audio", "tts", "en", "female-default", "modifiers",
        "light.mp3"]] ∧
    (GenTTS.generate_number_audio envAll 1 (some ["en"]) none false
      stEmpty).2.fs =
      [["public", "audio", "tts", "en", "female-default", "numbers",
        "1.mp3"]] ∧
    (GenTTS.generate_event_audio envAll "attention" none false stEmpty).2.fs =
      [["public", "audio", "events", "uk", "attention.mp3"]] :=
  ⟨rfl, rfl, rfl, rfl⟩

/-- C8: invoking the numeral generator with `max_number = 5` and
`languages = ["en"]` over an empty tree generates exactly 5 files,
`1.mp3` through `5.mp3`, all under the `numbers` subtree of the English
voice folder, and nothing else (the file list is exactly those five
paths, and no warnings are printed). -/
theorem claim_c8_numbers_five_files :
    (GenTTS.generate_number_audio envAll 5 (some ["en"]) none false
      stEmpty).1 = 5 ∧
    (GenTTS.generate_number_audio envAll 5 (some ["en"]) none false
      stEmpty).2.fs =
      [["public", "audio", "tts", "en", "female-default", "numbers", "1.mp3"],
       ["public", "audio", "tts", "en", "female-default", "numbers", "2.mp3"],
       ["public", "audio", "tts", "en", "female-default", "numbers", "3.mp3"],
       ["public", "audio", "tts", "en", "female-default", "numbers", "4.mp3"],
       ["public", "audio", "tts", "en", "female-default", "numbers",
        "5.mp3"]] ∧
    (GenTTS.generate_number_audio envAll 5 (some ["en"]) none false
      stEmpty).2.logs = [] :=
  ⟨rfl, rfl, rfl⟩

/-- C9: `generate_all_audio` hard-codes `languages=["uk"]` for the events
category, so (first conjunct) its result is entirely independent of the
caller's `languages` argument when only events are generated, and
(remaining conjuncts) requesting `languages = ["en"]` with events
included still produces exactly the five Ukrainian event files — all
under `public/audio/events/uk/` — and no event files in English. -/
theorem claim_c9_events_ignore_languages :
    (∀ (env : GenTTS.Env) (L₁ L₂ : Option (List String)) (ow : Bool)
      (st : St),
      GenTTS.generate_all_audio env L₁ (some []) false false true ow st =
        GenTTS.generate_all_audio env L₂ (some []) false false true ow st) ∧
    (GenTTS.generate_all_audio envAll (some ["en"]) (some []) false false
      true false stEmpty).2.fs =
      [["public", "audio", "events", "uk", "petlya-pidyomu.mp3"],
       ["public", "audio", "events", "uk", "prybavka.mp3"],
       ["public", "audio", "events", "uk", "ubavka.mp3"],
       ["public", "audio", "events", "uk", "zakriplennya.mp3"],
       ["public", "audio", "events", "uk", "attention.mp3"]] ∧
    (GenTTS.generate_all_audio envAll (some ["en"]) (some []) false false
      true false stEmpty).1.events = 5 :=
  ⟨fun _ _ _ _ _ => rfl, rfl, rfl⟩

/-- C4 counterexample: requesting the unconfigured language `de` from the
gTTS color generator produces zero files and makes no synthesis call, but
contrary to the claim it emits no warning at all — the returned state is
exactly the initial one, with an empty print log. -/
theorem claim_c4_counterexample :
    GenTTS.generate_color_audio envAll "Red" (some ["de"]) none false
      stEmpty = (0, stEmpty) ∧ stEmpty.logs = [] :=
  ⟨rfl, rfl⟩

/-- C3 counterexample: in `generate-tts-audio.py`, when the gTTS backend
is absent and a listing flag is set, the process does not terminate with
a non-zero status before other processing — it parses the arguments,
performs the listing, and returns normally with exit status 0. -/
theorem claim_c3_counterexample :
    GenTTS.main envNoGtts { baseArgs with listColors := true } stEmpty =
      (GenTTS.MainOutcome.listedColors, stEmpty) ∧
    GenTTS.exitCodeOf
      (GenTTS.main envNoGtts { baseArgs with listColors := true } stEmpty).1 =
      0 :=
  ⟨rfl, rfl⟩

/-- C3 (amended): in `generate-edge-tts.py` a missing backend terminates
the process with exit status 1 immediately at import, before any work. In
`generate-tts-audio.py` the missing backend is detected only inside
`main` after argument parsing and the listing branches: when no listing
flag is set, the process exits with status 1 (printing installation
guidance) before any generation work — the state is returned untouched,
so no file is written and no synthesis call is made — while a listing
flag makes the listing run and the process exit normally. -/
theorem claim_c3_amended_exit_behavior :
    EdgeTTS.edgeModuleInit false = some 1 ∧
    ∀ (env : GenTTS.Env) (args : GenTTS.Args) (st : St),
      env.gttsAvailable = false → args.listColors = false →
      args.listModifiers = false → args.listEvents = false →
      GenTTS.main env args st = (GenTTS.MainOutcome.exitMissingBackend, st) ∧
      GenTTS.exitCodeOf (GenTTS.main env args st).1 = 1 := by
  refine ⟨rfl, ?_⟩
  intro env args st h1 h2 h3 h4
  constructor
  · simp [GenTTS.main, h1, h2, h3, h4]
  · simp [GenTTS.main, h1, h2, h3, h4, GenTTS.exitCodeOf]

/-- Witness for the amended C3: with gTTS missing and no listing flag,
`main` exits with status 1 leaving the empty state untouched. -/
theorem claim_c3_amended_exit_behavior_witness :
    GenTTS.main envNoGtts baseArgs stEmpty =
      (GenTTS.MainOutcome.exitMissingBackend, stEmpty) ∧
    GenTTS.exitCodeOf (GenTTS.main envNoGtts baseArgs stEmpty).1 = 1 :=
  claim_c3_amended_exit_behavior.2 envNoGtts baseArgs stEmpty rfl rfl rfl rfl

/-- C10: the per-item wrapper `generate_audio_gtts` converts every
exception of its `try` body into a `False` return for its caller: if the
body raises (backend failure, or the `KeyError` from a language absent
from `LANGUAGE_CODES`), the wrapper returns `false` with the error
printed and no file written; the `KeyError` case is singled out in the
second conjunct. -/
theorem claim_c10_wrapper_total :
    ∀ (env : GenTTS.Env) (text language : String) (p : List String)
      (tld : String) (slow : Bool) (st : St),
      (env.gttsAvailable = true →
        ∀ (e : GenTTS.PyErr) (st1 : St),
          GenTTS.gttsBody env text language p tld slow st =
            (Except.error e, st1) →
          GenTTS.generate_audio_gtts env text language p tld slow st =
            (false, log st1 (LogEntry.synthesisError text)) ∧
          st1.fs = st.fs) ∧
      (env.gttsAvailable = true →
        List.lookup language GenTTS.LANGUAGE_CODES = none →
        GenTTS.generate_audio_gtts env text language p tld slow st =
          (false, log st (LogEntry.synthesisError text))) := by
  intro env text language p tld slow st
  constructor
  · intro ha e st1 hb
    constructor
    · simp [GenTTS.generate_audio_gtts, ha, hb]
    · revert hb
      simp only [GenTTS.gttsBody]
      cases hl : List.lookup language GenTTS.LANGUAGE_CODES with
      | none =>
          intro hb
          injection hb with hb1 hb2
          rw [← hb2]
      | some code =>
          by_cases hs : env.synthOk text code p
          · simp [hs]
          · simp only [hs, if_neg, Bool.false_eq_true, if_false]
            intro hb
            injection hb with hb1 hb2
            rw [← hb2]
  · intro ha hl
    simp [GenTTS.generate_audio_gtts, GenTTS.gttsBody, ha, hl]

/-- Witness for C10: the language `de` is absent from `LANGUAGE_CODES`,
and the wrapper turns the resulting `KeyError` into a `False` return with
the error printed and no file written. -/
theorem claim_c10_wrapper_total_witness :
    GenTTS.generate_audio_gtts envAll "hello" "de"
      ["public", "audio", "tts", "de", "female-default", "x.mp3"] "com"
      false stEmpty =
      (false, log stEmpty (LogEntry.synthesisError "hello")) :=
  (claim_c10_wrapper_total envAll "hello" "de"
    ["public", "audio", "tts", "de", "female-default", "x.mp3"] "com"
    false stEmpty).2 rfl rfl

/-- C6: when an item has no translation entry for a requested language,
the sweep prints the warning, attempts no file for that pair, and
continues with the remaining voice configs unchanged (first conjunct, for
the color loop); the second conjunct shows a full run on an event item
(`attention` requested in `en` and `uk`): the missing `en` translation is
warned about and skipped while the `uk` file is still produced, and the
run ends normally. -/
theorem claim_c6_missing_translation_skips_pair :
    (∀ (env : GenTTS.Env) (key : String) (tr : List (String × String))
      (langs : List String) (ow : Bool) (cfg : GenTTS.VoiceConfig)
      (rest : List GenTTS.VoiceConfig) (st : St),
      cfg.language ∈ langs → truthyGet tr cfg.language = none →
      GenTTS.colorLoop env key tr langs ow (cfg :: rest) st =
        GenTTS.colorLoop env key tr langs ow rest
          (log st (LogEntry.noLangTranslation cfg.language key))) ∧
    GenTTS.generate_event_audio envAll "attention" (some ["en", "uk"]) false
      stEmpty =
      (1, ⟨[["public", "audio", "events", "uk", "attention.mp3"]],
        [⟨"увага", "uk", "com", false,
          ["public", "audio", "events", "uk", "attention.mp3"]⟩],
        [], [LogEntry.noLangTranslation "en" "attention"]⟩) := by
  constructor
  · intro env key tr langs ow cfg rest st hm ht
    simp [GenTTS.colorLoop, hm, ht]
  · rfl

/-- Witness for C6: a custom voice config for the unconfigured language
`de` hits the missing-translation branch for the color `Red`: the warning
is printed and the loop continues with the remaining configs. -/
theorem claim_c6_missing_translation_skips_pair_witness :
    GenTTS.colorLoop envAll "Red"
      [("ru", "красный"), ("uk", "червоний"), ("en", "red")] ["de"] false
      [⟨"de", "female-default", some "com"⟩] stEmpty =
      GenTTS.colorLoop envAll "Red"
        [("ru", "красный"), ("uk", "червоний"), ("en", "red")] ["de"] false
        [] (log stEmpty (LogEntry.noLangTranslation "de" "Red")) :=
  claim_c6_missing_translation_skips_pair.1 envAll "Red"
    [("ru", "красный"), ("uk", "червоний"), ("en", "red")] ["de"] false
    ⟨"de", "female-default", some "com"⟩ [] stEmpty (by decide) rfl

/-- C5: when the synthesis call for an eligible (item, language) pair
fails, the exception is caught and the error printed, no file is written,
the pair contributes 0 to the count, and the sweep continues with the
remaining voice configs: processing `cfg :: rest` equals processing
`rest` from the state extended only by the attempted call and the error
message. -/
theorem claim_c5_synth_failure_continues :
    ∀ (env : GenTTS.Env) (key text code : String)
      (tr : List (String × String)) (langs : List String) (ow : Bool)
      (cfg : GenTTS.VoiceConfig) (rest : List GenTTS.VoiceConfig) (st : St),
      env.gttsAvailable = true →
      cfg.language ∈ langs →
      truthyGet tr cfg.language = some text →
      List.lookup cfg.language GenTTS.LANGUAGE_CODES = some code →
      env.synthOk text code
        (GenTTS.get_output_dir cfg.language cfg.folder ++
          [pyLower key ++ ".mp3"]) = false →
      (GenTTS.get_output_dir cfg.language cfg.folder ++
        [pyLower key ++ ".mp3"]) ∉ st.fs →
      GenTTS.colorLoop env key tr langs ow (cfg :: rest) st =
        GenTTS.colorLoop env key tr langs ow rest
          { st with
            calls := st.calls ++ [⟨text, code, cfg.tld.getD "com", false,
              GenTTS.get_output_dir cfg.language cfg.folder ++
                [pyLower key ++ ".mp3"]⟩],
            logs := st.logs ++ [LogEntry.synthesisError text] } := by
  intro env key text code tr langs ow cfg rest st ha hm ht hl hs hnf
  simp [GenTTS.colorLoop, hm, ht, hnf, GenTTS.generate_audio_gtts,
    GenTTS.gttsBody, ha, hl, hs, log]

/-- Witness for C5: with the backend failing (network down), generating
the color `Red` for English logs the attempted call and the error, writes
nothing, and moves on. -/
theorem claim_c5_synth_failure_continues_witness :
    GenTTS.colorLoop envFail "Red"
      [("ru", "красный"), ("uk", "червоний"), ("en", "red")] ["en"] false
      [⟨"en", "female-default", some "com"⟩] stEmpty =
      GenTTS.colorLoop envFail "Red"
        [("ru", "красный"), ("uk", "червоний"), ("en", "red")] ["en"] false
        []
        { stEmpty with
          calls := [⟨"red", "en", "com", false,
            ["public", "audio", "tts", "en", "female-default", "red.mp3"]⟩],
          logs := [LogEntry.synthesisError "red"] } :=
  claim_c5_synth_failure_continues envFail "Red" "red" "en"
    [("ru", "красный"), ("uk", "червоний"), ("en", "red")] ["en"] false
    ⟨"en", "female-default", some "com"⟩ [] stEmpty rfl (by decide) rfl rfl
    rfl (by decide)


/-- When no voice config in the list matches the requested languages, the
color loop does nothing at all: no file, no call, not even a warning. -/
theorem colorLoop_all_skipped (env : GenTTS.Env) (key : String)
    (tr : List (String × String)) (langs : List String) (ow : Bool) :
    ∀ (cfgs : List GenTTS.VoiceConfig) (st : St),
      (∀ cfg ∈ cfgs, cfg.language ∉ langs) →
      GenTTS.colorLoop env key tr langs ow cfgs st = (0, st) := by
  intro cfgs
  induction cfgs with
  | nil => intro st _; rfl
  | cons cfg rest ih =>
      intro st h
      have h1 : cfg.language ∉ langs := h cfg (List.mem_cons_self cfg rest)
      simp only [GenTTS.colorLoop, if_neg h1]
      exact ih st (fun c hc => h c (List.mem_cons_of_mem _ hc))

/-- When no voice config in the list matches the requested languages, the
number loop does nothing at all. -/
theorem numConfigLoop_all_skipped (env : GenTTS.Env) (m : Nat)
    (langs : List String) (ow : Bool) :
    ∀ (cfgs : List GenTTS.VoiceConfig) (st : St),
      (∀ cfg ∈ cfgs, cfg.language ∉ langs) →
      GenTTS.numConfigLoop env m langs ow cfgs st = (0, st) := by
  intro cfgs
  induction cfgs with
  | nil => intro st _; rfl
  | cons cfg rest ih =>
      intro st h
      have h1 : cfg.language ∉ langs := h cfg (List.mem_cons_self cfg rest)
      simp only [GenTTS.numConfigLoop, if_neg h1]
      exact ih st (fun c hc => h c (List.mem_cons_of_mem _ hc))

/-- C4 (amended): a requested language with no voice configuration
produces zero files and zero synthesis calls in both scripts, but only
the edge-tts script warns about it: `generate-edge-tts.py` prints
`Warning: No voice for language ...` and skips the language (first
conjunct), while `generate-tts-audio.py` silently skips it — its color
and number generators return the state completely untouched, with no
warning (second and third conjuncts). -/
theorem claim_c4_amended_unconfigured_language :
    (∀ (env : EdgeTTS.EdgeEnv) (lang : String) (ow : Bool) (st : St),
      truthyGet EdgeTTS.VOICES lang = none →
      EdgeTTS.generate_all env (some [lang]) ow st =
        ((0, 0), log st (LogEntry.noVoice lang))) ∧
    (∀ (env : GenTTS.Env) (key lang : String) (tr : List (String × String))
      (ow : Bool) (st : St),
      (∀ cfg ∈ GenTTS.VOICE_CONFIGS, cfg.language ≠ lang) →
      getDict GenTTS.COLOR_TRANSLATIONS key = some tr →
      GenTTS.generate_color_audio env key (some [lang]) none ow st =
        (0, st)) ∧
    (∀ (env : GenTTS.Env) (m : Nat) (lang : String) (ow : Bool) (st : St),
      (∀ cfg ∈ GenTTS.VOICE_CONFIGS, cfg.language ≠ lang) →
      GenTTS.generate_number_audio env m (some [lang]) none ow st =
        (0, st)) := by
  refine ⟨?_, ?_, ?_⟩
  · intro env lang ow st h
    simp [EdgeTTS.generate_all, EdgeTTS.edgeLangLoop, h]
  · intro env key lang tr ow st h1 h2
    simp only [GenTTS.generate_color_audio, h2, Option.getD_some]
    exact colorLoop_all_skipped env key tr [lang] ow GenTTS.VOICE_CONFIGS st
      (fun c hc => by simpa using h1 c hc)
  · intro env m lang ow st h1
    simp only [GenTTS.generate_number_audio, Option.getD_some]
    exact numConfigLoop_all_skipped env m [lang] ow GenTTS.VOICE_CONFIGS st
      (fun c hc => by simpa using h1 c hc)

/-- Witness for the amended C4: requesting only the unconfigured language
`de` yields the warning and zero files in the edge-tts script, and zero
files with no warning in the gTTS color and number generators. -/
theorem claim_c4_amended_unconfigured_language_witness :
    EdgeTTS.generate_all edgeEnvAll (some ["de"]) false stEmpty =
      ((0, 0), log stEmpty (LogEntry.noVoice "de")) ∧
    GenTTS.generate_color_audio envAll "Red" (some ["de"]) none false
      stEmpty = (0, stEmpty) ∧
    GenTTS.generate_number_audio envAll 3 (some ["de"]) none false
      stEmpty = (0, stEmpty) :=
  ⟨claim_c4_amended_unconfigured_language.1 edgeEnvAll "de" false stEmpty
      rfl,
   claim_c4_amended_unconfigured_language.2.1 envAll "Red" "de"
      [("ru", "красный"), ("uk", "червоний"), ("en", "red")] false stEmpty
      (by decide) rfl,
   claim_c4_amended_unconfigured_language.2.2 envAll 3 "de" false stEmpty
      (by decide)⟩

/-- C1: for an item with a defined translation for a configured language
`L`, running `generate_color_audio` with `overwrite = false` against an
initially absent target (with the backend succeeding) produces the output
file exactly once — the first run returns count 1 and appends exactly the
target path — and a second run is a no-op: it returns count 0 and the
state completely unchanged, so no synthesis call and no write happen. -/
theorem claim_c1_overwrite_false_idempotent :
    ∀ (env : GenTTS.Env) (key L : String) (tr : List (String × String))
      (text : String) (st : St),
      env.gttsAvailable = true →
      env.synthOk = (fun _ _ _ => true) →
      getDict GenTTS.COLOR_TRANSLATIONS key = some tr →
      truthyGet tr L = some text →
      L ∈ ["ru", "uk", "en"] →
      ["public", "audio", "tts", L, "female-default",
        pyLower key ++ ".mp3"] ∉ st.fs →
      (GenTTS.generate_color_audio env key (some [L]) none false st).1 = 1 ∧
      (GenTTS.generate_color_audio env key (some [L]) none false st).2.fs =
        st.fs ++ [["public", "audio", "tts", L, "female-default",
          pyLower key ++ ".mp3"]] ∧
      GenTTS.generate_color_audio env key (some [L]) none false
        (GenTTS.generate_color_audio env key (some [L]) none false st).2 =
        (0, (GenTTS.generate_color_audio env key (some [L]) none false
          st).2) := by
  intro env key L tr text st h1 h2 h3 h4 h5 h6
  simp only [List.mem_cons, List.not_mem_nil, or_false] at h5
  rcases h5 with h5 | h5 | h5 <;> subst h5 <;>
    simp [GenTTS.generate_color_audio, GenTTS.colorLoop,
      GenTTS.VOICE_CONFIGS, GenTTS.generate_audio_gtts, GenTTS.gttsBody,
      GenTTS.LANGUAGE_CODES, List.lookup, GenTTS.get_output_dir, h1, h2,
      h3, h4, h6, log]

/-- Witness for C1: generating `Red` in Russian from the empty tree
writes exactly `public/audio/tts/ru/female-default/red.mp3` once, and the
second run returns count 0 with the state unchanged. -/
theorem claim_c1_overwrite_false_idempotent_witness :
    (GenTTS.generate_color_audio envAll "Red" (some ["ru"]) none false
      stEmpty).1 = 1 ∧
    (GenTTS.generate_color_audio envAll "Red" (some ["ru"]) none false
      stEmpty).2.fs =
      stEmpty.fs ++ [["public", "audio", "tts", "ru", "female-default",
        pyLower "Red" ++ ".mp3"]] ∧
    GenTTS.generate_color_audio envAll "Red" (some ["ru"]) none false
      (GenTTS.generate_color_audio envAll "Red" (some ["ru"]) none false
        stEmpty).2 =
      (0, (GenTTS.generate_color_audio envAll "Red" (some ["ru"]) none
        false stEmpty).2) :=
  claim_c1_overwrite_false_idempotent envAll "Red" "ru"
    [("ru", "красный"), ("uk", "червоний"), ("en", "red")] "красный"
    stEmpty rfl rfl rfl rfl (by decide) (by decide)

/-- The result and call log of `generate_audio_gtts` do not depend on the
files already on disk: the wrapper never reads `fs`. -/
theorem generate_audio_gtts_fs_irrelevant (env : GenTTS.Env)
    (text language : String) (p : List String) (tld : String) (slow : Bool) :
    ∀ (st1 st2 : St), st1.calls = st2.calls →
      (GenTTS.generate_audio_gtts env text language p tld slow st1).1 =
        (GenTTS.generate_audio_gtts env text language p tld slow st2).1 ∧
      (GenTTS.generate_audio_gtts env text language p tld slow st1).2.calls =
        (GenTTS.generate_audio_gtts env text language p tld slow st2).2.calls := by
  intro st1 st2 h
  by_cases ha : env.gttsAvailable = false
  · simp [GenTTS.generate_audio_gtts, ha, log, h]
  · cases hl : List.lookup language GenTTS.LANGUAGE_CODES with
    | none =>
        simp [GenTTS.generate_audio_gtts, GenTTS.gttsBody, ha, hl, log, h]
    | some code =>
        by_cases hs : env.synthOk text code p
        · simp [GenTTS.generate_audio_gtts, GenTTS.gttsBody, ha, hl, hs, h]
        · simp [GenTTS.generate_audio_gtts, GenTTS.gttsBody, ha, hl, hs,
            log, h]

/-- With `overwrite = true` the color loop's exists-check is dead code:
its count and its synthesis-call log are independent of which files
already exist. -/
theorem colorLoop_overwrite_true_calls (env : GenTTS.Env) (key : String)
    (tr : List (String × String)) (langs : List String) :
    ∀ (cfgs : List GenTTS.VoiceConfig) (st1 st2 : St),
      st1.calls = st2.calls →
      (GenTTS.colorLoop env key tr langs true cfgs st1).1 =
        (GenTTS.colorLoop env key tr langs true cfgs st2).1 ∧
      (GenTTS.colorLoop env key tr langs true cfgs st1).2.calls =
        (GenTTS.colorLoop env key tr langs true cfgs st2).2.calls := by
  intro cfgs
  induction cfgs with
  | nil => intro st1 st2 h; exact ⟨rfl, h⟩
  | cons cfg rest ih =>
      intro st1 st2 h
      by_cases hm : cfg.language ∈ langs
      · cases ht : truthyGet tr cfg.language with
        | none =>
            simp only [GenTTS.colorLoop, if_pos hm, ht]
            exact ih _ _ (by simp [log, h])
        | some text =>
            simp only [GenTTS.colorLoop, if_pos hm, ht, Bool.true_eq_false,
              and_false, if_false]
            obtain ⟨e1, e2⟩ := generate_audio_gtts_fs_irrelevant env text
              cfg.language (GenTTS.get_output_dir cfg.language cfg.folder ++
                [pyLower key ++ ".mp3"]) (cfg.tld.getD "com") false st1 st2 h
            obtain ⟨f1, f2⟩ := ih _ _ e2
            exact ⟨by rw [e1, f1], f2⟩
      · simp only [GenTTS.colorLoop, if_neg hm]
        exact ih _ _ h

/-- With `overwrite = true` the per-number loop's count and call log are
independent of which files already exist. -/
theorem numLoop_overwrite_true_calls (env : GenTTS.Env)
    (language tld : String) (dir : List String) :
    ∀ (ns : List Nat) (st1 st2 : St), st1.calls = st2.calls →
      (GenTTS.numLoop env language tld dir true ns st1).1 =
        (GenTTS.numLoop env language tld dir true ns st2).1 ∧
      (GenTTS.numLoop env language tld dir true ns st1).2.calls =
        (GenTTS.numLoop env language tld dir true ns st2).2.calls := by
  intro ns
  induction ns with
  | nil => intro st1 st2 h; exact ⟨rfl, h⟩
  | cons n rest ih =>
      intro st1 st2 h
      simp only [GenTTS.numLoop, Bool.true_eq_false, and_false, if_false]
      obtain ⟨e1, e2⟩ := generate_audio_gtts_fs_irrelevant env (toString n)
        language (dir ++ [toString n ++ ".mp3"]) tld false st1 st2 h
      obtain ⟨f1, f2⟩ := ih _ _ e2
      exact ⟨by rw [e1, f1], f2⟩

/-- With `overwrite = true` the number generator's config loop has count
and call log independent of which files already exist. -/
theorem numConfigLoop_overwrite_true_calls (env : GenTTS.Env) (m : Nat)
    (langs : List String) :
    ∀ (cfgs : List GenTTS.VoiceConfig) (st1 st2 : St),
      st1.calls = st2.calls →
      (GenTTS.numConfigLoop env m langs true cfgs st1).1 =
        (GenTTS.numConfigLoop env m langs true cfgs st2).1 ∧
      (GenTTS.numConfigLoop env m langs true cfgs st1).2.calls =
        (GenTTS.numConfigLoop env m langs true cfgs st2).2.calls := by
  intro cfgs
  induction cfgs with
  | nil => intro st1 st2 h; exact ⟨rfl, h⟩
  | cons cfg rest ih =>
      intro st1 st2 h
      by_cases hm : cfg.language ∈ langs
      · simp only [GenTTS.numConfigLoop, if_pos hm]
        obtain ⟨e1, e2⟩ := numLoop_overwrite_true_calls env cfg.language
          (cfg.tld.getD "com")
          (GenTTS.get_output_dir cfg.language cfg.folder ++ ["numbers"])
          (GenTTS.numbersUpTo m) st1 st2 h
        obtain ⟨f1, f2⟩ := ih _ _ e2
        exact ⟨by rw [e1, f1], f2⟩
      · simp only [GenTTS.numConfigLoop, if_neg hm]
        exact ih _ _ h

/-- C7: with `overwrite = true` the color and number generators issue the
same synthesis calls and report the same counts no matter which files
already exist or what they contain — the prior filesystem content is
never consulted (first two conjuncts) — and concretely, regenerating
`Red` in Russian over a tree that already holds `red.mp3` still issues
the synthesis call for it (third conjunct). -/
theorem claim_c7_overwrite_true_regenerates :
    (∀ (env : GenTTS.Env) (key : String) (languages : Option (List String))
      (vcs : Option (List GenTTS.VoiceConfig)) (st1 st2 : St),
      st1.calls = st2.calls →
      (GenTTS.generate_color_audio env key languages vcs true st1).1 =
        (GenTTS.generate_color_audio env key languages vcs true st2).1 ∧
      (GenTTS.generate_color_audio env key languages vcs true st1).2.calls =
        (GenTTS.generate_color_audio env key languages vcs true st2).2.calls) ∧
    (∀ (env : GenTTS.Env) (m : Nat) (languages : Option (List String))
      (vcs : Option (List GenTTS.VoiceConfig)) (st1 st2 : St),
      st1.calls = st2.calls →
      (GenTTS.generate_number_audio env m languages vcs true st1).1 =
        (GenTTS.generate_number_audio env m languages vcs true st2).1 ∧
      (GenTTS.generate_number_audio env m languages vcs true st1).2.calls =
        (GenTTS.generate_number_audio env m languages vcs true st2).2.calls) ∧
    (GenTTS.generate_color_audio envAll "Red" (some ["ru"]) none true
      ⟨[["public", "audio", "tts", "ru", "female-default", "red.mp3"]],
        [], [], []⟩).2.calls =
      [⟨"красный", "ru", "com", false,
        ["public", "audio", "tts", "ru", "female-default", "red.mp3"]⟩] := by
  refine ⟨?_, ?_, rfl⟩
  · intro env key languages vcs st1 st2 h
    cases hg : getDict GenTTS.COLOR_TRANSLATIONS key with
    | none => simp [GenTTS.generate_color_audio, hg, log, h]
    | some tr =>
        simp only [GenTTS.generate_color_audio, hg]
        exact colorLoop_overwrite_true_calls env key tr _ _ st1 st2 h
  · intro env m languages vcs st1 st2 h
    simp only [GenTTS.generate_number_audio]
    exact numConfigLoop_overwrite_true_calls env m _ _ st1 st2 h

/-- Witness for C7: generating `Red` (Russian) with `overwrite = true`
from the empty tree and from a tree where the target already exists gives
the same count and the same synthesis-call log. -/
theorem claim_c7_overwrite_true_regenerates_witness :
    (GenTTS.generate_color_audio envAll "Red" (some ["ru"]) none true
      stEmpty).1 =
      (GenTTS.generate_color_audio envAll "Red" (some ["ru"]) none true
        ⟨[["public", "audio", "tts", "ru", "female-default", "red.mp3"]],
          [], [], []⟩).1 ∧
    (GenTTS.generate_color_audio envAll "Red" (some ["ru"]) none true
      stEmpty).2.calls =
      (GenTTS.generate_color_audio envAll "Red" (some ["ru"]) none true
        ⟨[["public", "audio", "tts", "ru", "female-default", "red.mp3"]],
          [], [], []⟩).2.calls :=
  claim_c7_overwrite_true_regenerates.1 envAll "Red" (some ["ru"]) none
    stEmpty
    ⟨[["public", "audio", "tts", "ru", "female-default", "red.mp3"]],
      [], [], []⟩ rfl
